import Mathlib

/-!
Verification of the iperf3_statuspage core: the single-slot result cache
(`LAST_RESULT`), the refresh cycle (`run_iperf3_and_cache_with_runner`), the
scheduler (`spawn_iperf3_scheduler`), the read paths (`get_last_result`,
`get_cached_iperf3_result`, the `/iperf3` endpoint) and the interval
configuration (`min_frequency_duration`).

The Rust code is shallowly embedded: the global `LAST_RESULT` mutex becomes an
explicit state value of type `Store` threaded through the operations;
`Instant::now()` becomes an explicit `now : Nat` argument; `env::var` becomes an
`Option String` argument; `serde_json::from_str::<Iperf3Report>` (an external
library call whose schema the core treats as opaque) becomes an abstract
`parse : String → Option Iperf3Report` argument; the `Iperf3Runner` trait object
becomes a function `String → String → Except String String` from (ip, port) to
the runner's result. Rust `u64` values are `Nat` with an explicit `% 2 ^ 64`
where overflow matters; `f64` fields are Lean `Float`.
-/

namespace Iperf3

/-- Field-for-field embedding of `models.rs` `Connected`. -/
structure Connected where
  socket : Nat
  local_host : String
  local_port : Nat
  remote_host : String
  remote_port : Nat

/-- Field-for-field embedding of `models.rs` `Timestamp`. -/
structure Timestamp where
  time : String
  timesecs : Nat

/-- Field-for-field embedding of `models.rs` `ConnectingTo`. -/
structure ConnectingTo where
  host : String
  port : Nat

/-- Field-for-field embedding of `models.rs` `TestStart` (Rust `omit` renamed
`omit_`, a Lean keyword). -/
structure TestStart where
  protocol : String
  num_streams : Nat
  blksize : Nat
  omit_ : Nat
  duration : Nat
  bytes : Nat
  blocks : Nat
  reverse : Nat
  tos : Nat
  target_bitrate : Nat
  bidir : Nat
  fqrate : Nat

/-- Field-for-field embedding of `models.rs` `Start`. -/
structure Start where
  connected : List Connected
  version : String
  system_info : String
  timestamp : Timestamp
  connecting_to : ConnectingTo
  cookie : String
  tcp_mss_default : Nat
  target_bitrate : Nat
  fq_rate : Nat
  sock_bufsize : Nat
  sndbuf_actual : Nat
  rcvbuf_actual : Nat
  test_start : TestStart

/-- Field-for-field embedding of `models.rs` `Stream` (Rust `end` renamed `end_`,
a Lean keyword). -/
structure Stream where
  socket : Nat
  start : Float
  end_ : Float
  seconds : Float
  bytes : Nat
  bits_per_second : Float
  retransmits : Nat
  snd_cwnd : Nat
  snd_wnd : Nat
  rtt : Nat
  rttvar : Nat
  pmtu : Nat
  omitted : Bool
  sender : Bool

/-- Field-for-field embedding of `models.rs` `Sum`. -/
structure Sum where
  start : Float
  end_ : Float
  seconds : Float
  bytes : Nat
  bits_per_second : Float
  retransmits : Nat
  omitted : Bool
  sender : Bool

/-- Field-for-field embedding of `models.rs` `Interval`. -/
structure Interval where
  streams : List Stream
  sum : Sum

/-- Field-for-field embedding of `models.rs` `Sender`. -/
structure Sender where
  socket : Nat
  start : Float
  end_ : Float
  seconds : Float
  bytes : Nat
  bits_per_second : Float
  retransmits : Nat
  max_snd_cwnd : Nat
  max_snd_wnd : Nat
  max_rtt : Nat
  min_rtt : Nat
  mean_rtt : Nat
  sender : Bool

/-- Field-for-field embedding of `models.rs` `Receiver`. -/
structure Receiver where
  socket : Nat
  start : Float
  end_ : Float
  seconds : Float
  bytes : Nat
  bits_per_second : Float
  sender : Bool

/-- Field-for-field embedding of `models.rs` `EndStream`. -/
structure EndStream where
  sender : Sender
  receiver : Receiver

/-- Field-for-field embedding of `models.rs` `SumSent`. -/
structure SumSent where
  start : Float
  end_ : Float
  seconds : Float
  bytes : Nat
  bits_per_second : Float
  retransmits : Nat
  sender : Bool

/-- Field-for-field embedding of `models.rs` `SumReceived`. -/
structure SumReceived where
  start : Float
  end_ : Float
  seconds : Float
  bytes : Nat
  bits_per_second : Float
  sender : Bool

/-- Field-for-field embedding of `models.rs` `CpuUtilizationPercent`. -/
structure CpuUtilizationPercent where
  host_total : Float
  host_user : Float
  host_system : Float
  remote_total : Float
  remote_user : Float
  remote_system : Float

/-- Field-for-field embedding of `models.rs` `End`. -/
structure End where
  streams : List EndStream
  sum_sent : SumSent
  sum_received : SumReceived
  cpu_utilization_percent : CpuUtilizationPercent
  sender_tcp_congestion : String
  receiver_tcp_congestion : String

/-- Field-for-field embedding of `models.rs` `Iperf3Report` (Rust `end` renamed
`end_`, a Lean keyword). -/
structure Iperf3Report where
  start : Start
  intervals : List Interval
  end_ : End

/-- State of the global `LAST_RESULT : Lazy<Mutex<Option<(Iperf3Report, Instant)>>>`:
nothing cached yet, or one report paired with the `Instant` (modelled as a `Nat`)
at which it was cached. -/
abbrev Store := Option (Iperf3Report × Nat)

/-- Embedding of `get_last_result`: locks the cache and returns a clone of the
cached report, if any, dropping the instant. -/
def get_last_result (cache : Store) : Option Iperf3Report :=
  cache.map (fun p => p.1)

/-- Embedding of `get_last_result` as a state transformer `Store → value × Store`:
the function only reads under the lock (`cache.as_ref()`), so the store it leaves
behind is exactly the store it found. -/
def get_last_result_st (cache : Store) : Option Iperf3Report × Store :=
  (get_last_result cache, cache)

/-- Embedding of `set_last_result_for_test`: overwrites the cache with the given
report and the current instant, regardless of the prior contents. -/
def set_last_result_for_test (result : Iperf3Report) (now : Nat) (_cache : Store) : Store :=
  some (result, now)

/-- Embedding of `clear_last_result_for_test`: overwrites the cache with `None`. -/
def clear_last_result_for_test (_cache : Store) : Store :=
  none

/-- Result of the `/iperf3` actix handler: HTTP 200 with the report as JSON body,
or HTTP 503 with a plain-text body. -/
inductive HttpResp where
  | ok (body : Iperf3Report)
  | serviceUnavailable (body : String)

/-- Embedding of the `iperf3` endpoint handler: 200 with the cached report if one
is present, 503 `"Iperf3 result not available yet."` otherwise. -/
def iperf3 (cache : Store) : HttpResp :=
  match cache with
  | some (cached_result, _timestamp) => .ok cached_result
  | none => .serviceUnavailable "Iperf3 result not available yet."

/-- Embedding of Rust `str::parse::<u64>`: an optional leading plus sign, then a
non-empty run of ASCII digits whose value fits in 64 bits; anything else fails. -/
def parseU64 (s : String) : Option Nat :=
  let ds := match s.data with
    | '+' :: rest => rest
    | cs => cs
  if ds = [] then none
  else if ds.all (fun c => c.isDigit) then
    let n := ds.foldl (fun acc c => acc * 10 + (c.toNat - '0'.toNat)) 0
    if n < 2 ^ 64 then some n else none
  else none

/-- Embedding of `min_frequency_duration`, returning the `Duration` in whole
seconds. `env::var("INTERVAL_MINUTES")` is the `intervalMinutes` argument
(`none` for an absent variable); a present value that fails `parse::<u64>` falls
back to the default of 10 minutes. The `minutes * 60` multiplication is `u64`
arithmetic with no overflow guard, embedded with release-mode wrapping as an
explicit `% 2 ^ 64`. -/
def min_frequency_duration (intervalMinutes : Option String) : Nat :=
  let minutes := (intervalMinutes.bind (fun s => parseU64 s)).getD 10
  minutes * 60 % 2 ^ 64

/-- Embedding of `run_iperf3_and_cache_with_runner`. `runner` is the
`Iperf3Runner` trait object's `run_iperf3`, applied to (ip, port); `parse` is
`serde_json::from_str::<Iperf3Report>`; `now` is `Instant::now()` at the store
write. On a runner error or a parse failure the function only logs and returns
the cache unchanged; on success it rebuilds the report from the parsed fields
and overwrites the cache with it. -/
def run_iperf3_and_cache_with_runner (parse : String → Option Iperf3Report)
    (runner : String → String → Except String String)
    (iperf3_ip iperf3_port : String) (now : Nat) (cache : Store) : Store :=
  match runner iperf3_ip iperf3_port with
  | .ok stdout =>
    match parse stdout with
    | some data =>
      let result : Iperf3Report :=
        { start := data.start, intervals := data.intervals, end_ := data.end_ }
      some (result, now)
    | none => cache
  | .error _ => cache

/-- Embedding of `get_cached_iperf3_result`: `Ok` with a clone of the cached
report, or `Err "Iperf3 result not available yet."` when nothing is cached. -/
def get_cached_iperf3_result (cache : Store) : Except String Iperf3Report :=
  match cache with
  | some (cached_result, _) => .ok cached_result
  | none => .error "Iperf3 result not available yet."

/-- Observable scheduler events of `spawn_iperf3_scheduler`: running one
measurement cycle, or awaiting a tick of the periodic timer. -/
inductive SchedEvent where
  | runCycle
  | tickWait
deriving DecidableEq

/-- Event trace of `spawn_iperf3_scheduler` unrolled for `n` loop iterations:
one immediate cycle on startup, then `n` repetitions of awaiting the ticker and
running a cycle. -/
def spawn_iperf3_scheduler_events (n : Nat) : List SchedEvent :=
  SchedEvent.runCycle :: (List.replicate n [SchedEvent.tickWait, SchedEvent.runCycle]).flatten

/-- Store contents produced by `spawn_iperf3_scheduler` after cycle `k`, starting
from the empty store: cycle 0 is the immediate startup run, cycle `k+1` is the
run after the `k+1`-st tick. `runner k` is the runner's outcome on cycle `k` and
`times k` the instant of that cycle's store write. -/
def spawn_iperf3_scheduler_cache (parse : String → Option Iperf3Report)
    (runner : Nat → String → String → Except String String)
    (iperf3_ip iperf3_port : String) (times : Nat → Nat) : Nat → Store
  | 0 => run_iperf3_and_cache_with_runner parse (runner 0) iperf3_ip iperf3_port (times 0) none
  | k + 1 =>
    run_iperf3_and_cache_with_runner parse (runner (k + 1)) iperf3_ip iperf3_port
      (times (k + 1))
      (spawn_iperf3_scheduler_cache parse runner iperf3_ip iperf3_port times k)

/-- The operations that touch `LAST_RESULT`, for reasoning about sequences of
calls against the store. -/
inductive StoreOp where
  | setOp (result : Iperf3Report) (now : Nat)
  | clearOp
  | getOp
  | runOp (parse : String → Option Iperf3Report)
      (runner : String → String → Except String String)
      (iperf3_ip iperf3_port : String) (now : Nat)

/-- State transition of one store operation. -/
def applyOp (op : StoreOp) (cache : Store) : Store :=
  match op with
  | .setOp result now => set_last_result_for_test result now cache
  | .clearOp => clear_last_result_for_test cache
  | .getOp => (get_last_result_st cache).2
  | .runOp parse runner ip port now =>
    run_iperf3_and_cache_with_runner parse runner ip port now cache

/-- An operation commits a report to the store: a direct `set`, or a run whose
runner succeeds and whose output parses. -/
def commitsReport : StoreOp → Prop
  | .setOp _ _ => True
  | .runOp parse runner ip port _ =>
    ∃ stdout data, runner ip port = .ok stdout ∧ parse stdout = some data
  | _ => False

/-- A concrete report for witnesses: the given `timesecs`, every other field at
the zero/empty value of its type. -/
def exampleReport (ts : Nat) : Iperf3Report :=
  { start :=
      { connected := []
        version := ""
        system_info := ""
        timestamp := { time := "", timesecs := ts }
        connecting_to := { host := "", port := 0 }
        cookie := ""
        tcp_mss_default := 0
        target_bitrate := 0
        fq_rate := 0
        sock_bufsize := 0
        sndbuf_actual := 0
        rcvbuf_actual := 0
        test_start :=
          { protocol := ""
            num_streams := 0
            blksize := 0
            omit_ := 0
            duration := 0
            bytes := 0
            blocks := 0
            reverse := 0
            tos := 0
            target_bitrate := 0
            bidir := 0
            fqrate := 0 } }
    intervals := []
    end_ :=
      { streams := []
        sum_sent :=
          { start := 0.0, end_ := 0.0, seconds := 0.0, bytes := 0
            bits_per_second := 0.0, retransmits := 0, sender := false }
        sum_received :=
          { start := 0.0, end_ := 0.0, seconds := 0.0, bytes := 0
            bits_per_second := 0.0, sender := false }
        cpu_utilization_percent :=
          { host_total := 0.0, host_user := 0.0, host_system := 0.0
            remote_total := 0.0, remote_user := 0.0, remote_system := 0.0 }
        sender_tcp_congestion := ""
        receiver_tcp_congestion := "" } }

end Iperf3

namespace Iperf3

/-- C1: any failing runner outcome (runner error, or output that fails to parse)
leaves `LAST_RESULT` exactly as it was: the store state is unchanged, so
`get_last_result` afterwards returns what it returned before. -/
theorem run_iperf3_failure_leaves_cache_unchanged
    (parse : String → Option Iperf3Report)
    (runner : String → String → Except String String)
    (iperf3_ip iperf3_port : String) (now : Nat) (cache : Store)
    (hfail : (∃ e, runner iperf3_ip iperf3_port = .error e) ∨
             (∃ stdout, runner iperf3_ip iperf3_port = .ok stdout ∧ parse stdout = none)) :
    run_iperf3_and_cache_with_runner parse runner iperf3_ip iperf3_port now cache = cache ∧
    get_last_result (run_iperf3_and_cache_with_runner parse runner iperf3_ip iperf3_port now cache)
      = get_last_result cache := by
  have h : run_iperf3_and_cache_with_runner parse runner iperf3_ip iperf3_port now cache = cache := by
    rcases hfail with ⟨e, he⟩ | ⟨s, hs, hp⟩
    · simp [run_iperf3_and_cache_with_runner, he]
    · simp [run_iperf3_and_cache_with_runner, hs, hp]
  exact ⟨h, by rw [h]⟩

/-- Witness for C1 at a concrete failing runner and a populated store. -/
theorem run_iperf3_failure_leaves_cache_unchanged_witness :
    get_last_result (run_iperf3_and_cache_with_runner (fun _ => none)
        (fun _ _ => .error "connection refused") "10.0.0.1" "5201" 4 (some (exampleReport 7, 3)))
      = some (exampleReport 7) := by
  have h := run_iperf3_failure_leaves_cache_unchanged (fun _ => none)
      (fun _ _ => .error "connection refused") "10.0.0.1" "5201" 4 (some (exampleReport 7, 3))
      (Or.inl ⟨"connection refused", rfl⟩)
  exact h.2.trans rfl

/-- C2: a successful runner outcome whose output parses is written to the store,
and `get_last_result` then returns the parsed report; if its
`start.timestamp.timesecs` is 1000, the returned report's `timesecs` is 1000. -/
theorem run_iperf3_success_caches_parsed_report
    (parse : String → Option Iperf3Report)
    (runner : String → String → Except String String)
    (iperf3_ip iperf3_port : String) (now : Nat) (cache : Store)
    (stdout : String) (data : Iperf3Report)
    (hok : runner iperf3_ip iperf3_port = .ok stdout)
    (hparse : parse stdout = some data) :
    run_iperf3_and_cache_with_runner parse runner iperf3_ip iperf3_port now cache
      = some ({ start := data.start, intervals := data.intervals, end_ := data.end_ }, now) ∧
    get_last_result (run_iperf3_and_cache_with_runner parse runner iperf3_ip iperf3_port now cache)
      = some { start := data.start, intervals := data.intervals, end_ := data.end_ } ∧
    (data.start.timestamp.timesecs = 1000 →
      (get_last_result (run_iperf3_and_cache_with_runner parse runner iperf3_ip iperf3_port now cache)).map
        (fun r => r.start.timestamp.timesecs) = some 1000) := by
  have h : run_iperf3_and_cache_with_runner parse runner iperf3_ip iperf3_port now cache
      = some ({ start := data.start, intervals := data.intervals, end_ := data.end_ }, now) := by
    simp [run_iperf3_and_cache_with_runner, hok, hparse]
  refine ⟨h, by rw [h]; rfl, fun hts => by rw [h]; simpa [get_last_result] using hts⟩

/-- Witness for C2: a runner returning output parsed as a report with
`timesecs = 1000`; the cached report read back has `timesecs = 1000`. -/
theorem run_iperf3_success_caches_parsed_report_witness :
    (get_last_result (run_iperf3_and_cache_with_runner (fun _ => some (exampleReport 1000))
        (fun _ _ => .ok "iperf3 json output") "10.0.0.1" "5201" 9 none)).map
      (fun r => r.start.timestamp.timesecs) = some 1000 := by
  have h := run_iperf3_success_caches_parsed_report (fun _ => some (exampleReport 1000))
      (fun _ _ => .ok "iperf3 json output") "10.0.0.1" "5201" 9 none "iperf3 json output"
      (exampleReport 1000) rfl rfl
  exact h.2.2 rfl

/-- C3: `get_cached_iperf3_result` is a total tri-state read: it returns the
error string exactly when the store is empty, and `Ok` with the cached report
exactly when one is present. -/
theorem get_cached_iperf3_result_tri_state (cache : Store) :
    (get_cached_iperf3_result cache = .error "Iperf3 result not available yet." ↔ cache = none) ∧
    (∀ result, (∃ t, cache = some (result, t)) →
      get_cached_iperf3_result cache = .ok result) ∧
    (∀ result, get_cached_iperf3_result cache = .ok result → ∃ t, cache = some (result, t)) := by
  rcases cache with _ | ⟨r, t⟩
  · refine ⟨by simp [get_cached_iperf3_result], ?_, ?_⟩
    · rintro result ⟨t, ht⟩; cases ht
    · intro result h; simp [get_cached_iperf3_result] at h
  · refine ⟨by simp [get_cached_iperf3_result], ?_, ?_⟩
    · rintro result ⟨t', ht⟩
      injection ht with ht'
      injection ht' with h1 h2
      simp [get_cached_iperf3_result, h1]
    · intro result h
      simp [get_cached_iperf3_result] at h
      exact ⟨t, by rw [h]⟩

/-- Witness for C3 at a populated store. -/
theorem get_cached_iperf3_result_tri_state_witness :
    get_cached_iperf3_result (some (exampleReport 5, 2)) = .ok (exampleReport 5) := by
  exact (get_cached_iperf3_result_tri_state (some (exampleReport 5, 2))).2.1
    (exampleReport 5) ⟨2, rfl⟩

end Iperf3

namespace Iperf3

/-- Counterexample for C4: `INTERVAL_MINUTES = "0"` parses as the u64 value 0,
and the computed interval is 0 seconds, not at least 1 unit. -/
theorem min_frequency_duration_zero_counterexample :
    parseU64 "0" = some 0 ∧ min_frequency_duration (some "0") = 0 := by
  exact ⟨by decide, by decide⟩

/-- C4 (amended): the default of 10 minutes (600 s) is used when
`INTERVAL_MINUTES` is absent or unparseable; a parseable value `m` yields
`m * 60` seconds in wrapping u64 arithmetic with no clamping, which is at least
60 seconds whenever `1 ≤ m` and the multiplication does not overflow. -/
theorem min_frequency_duration_default_and_scaling (intervalMinutes : Option String) :
    (intervalMinutes.bind (fun s => parseU64 s) = none →
      min_frequency_duration intervalMinutes = 600) ∧
    (∀ m, intervalMinutes.bind (fun s => parseU64 s) = some m →
      min_frequency_duration intervalMinutes = m * 60 % 2 ^ 64) ∧
    (∀ m, intervalMinutes.bind (fun s => parseU64 s) = some m → 1 ≤ m → m * 60 < 2 ^ 64 →
      60 ≤ min_frequency_duration intervalMinutes) := by
  refine ⟨fun h => ?_, fun m hm => ?_, fun m hm h1 hlt => ?_⟩
  · simp [min_frequency_duration, h]
  · simp [min_frequency_duration, hm]
  · have h2 : min_frequency_duration intervalMinutes = m * 60 % 2 ^ 64 := by
      simp [min_frequency_duration, hm]
    rw [h2, Nat.mod_eq_of_lt hlt]
    calc 60 = 1 * 60 := by norm_num
    _ ≤ m * 60 := Nat.mul_le_mul_right 60 h1

/-- Witness for C4 (amended): `INTERVAL_MINUTES = "3"` yields at least 60 s. -/
theorem min_frequency_duration_default_and_scaling_witness :
    60 ≤ min_frequency_duration (some "3") := by
  exact (min_frequency_duration_default_and_scaling (some "3")).2.2 3
    (by decide) (by decide) (by decide)

/-- Counterexample for C5: two store states holding the same report at distinct
capture instants are indistinguishable through every read path, so the value
returned to a reader cannot include the capture instant. -/
theorem read_path_timestamp_counterexample :
    (5 : Nat) ≠ 99 ∧
    get_last_result (some (exampleReport 0, 5)) = get_last_result (some (exampleReport 0, 99)) ∧
    get_cached_iperf3_result (some (exampleReport 0, 5))
      = get_cached_iperf3_result (some (exampleReport 0, 99)) := by
  exact ⟨by decide, rfl, rfl⟩

/-- C5 (amended): the store retains the capture instant internally, but every
read path (`get_last_result`, `get_cached_iperf3_result`, the `/iperf3`
endpoint) returns only the report, independently of the capture instant; the
capture time is not exposed to callers. -/
theorem read_path_returns_report_only (result : Iperf3Report) (t t' : Nat) :
    get_last_result (some (result, t)) = some result ∧
    get_last_result (some (result, t)) = get_last_result (some (result, t')) ∧
    get_cached_iperf3_result (some (result, t)) = .ok result ∧
    iperf3 (some (result, t)) = .ok result := by
  exact ⟨rfl, rfl, rfl, rfl⟩

/-- C6: from any prior store state, `set(A)` then `set(B)` leaves the store
holding exactly B's report and B's capture time, and `get_last_result` returns
B's report. -/
theorem set_then_set_fully_replaces (cache : Store) (rA rB : Iperf3Report) (tA tB : Nat) :
    set_last_result_for_test rB tB (set_last_result_for_test rA tA cache) = some (rB, tB) ∧
    get_last_result (set_last_result_for_test rB tB (set_last_result_for_test rA tA cache))
      = some rB := by
  exact ⟨rfl, rfl⟩

end Iperf3

namespace Iperf3

/-- Helper: an operation that commits no report maps the empty store to the
empty store. -/
theorem applyOp_none_of_not_commitsReport (op : StoreOp) (h : ¬ commitsReport op) :
    applyOp op none = none := by
  cases op with
  | setOp r t => exact absurd trivial h
  | clearOp => rfl
  | getOp => rfl
  | runOp parse runner ip port now =>
    cases hrun : runner ip port with
    | error e => simp [applyOp, run_iperf3_and_cache_with_runner, hrun]
    | ok stdout =>
      cases hp : parse stdout with
      | none => simp [applyOp, run_iperf3_and_cache_with_runner, hrun, hp]
      | some data => exact absurd ⟨stdout, data, hrun, hp⟩ h

/-- Helper: a sequence of operations none of which commits a report keeps the
empty store empty. -/
theorem foldl_none_of_no_commit (ops : List StoreOp)
    (h : ∀ op ∈ ops, ¬ commitsReport op) :
    ops.foldl (fun s op => applyOp op s) none = none := by
  induction ops with
  | nil => rfl
  | cons op rest ih =>
    rw [List.foldl_cons, applyOp_none_of_not_commitsReport op (h op (by simp))]
    exact ih (fun o ho => h o (by simp [ho]))

/-- C7: after `clear_last_result_for_test` the store is empty and
`get_last_result` returns `none`, and it keeps returning `none` across any
sequence of subsequent operations that contains no successful `set` (no direct
set and no run whose output parses). -/
theorem clear_then_none_until_set (cache : Store) (ops : List StoreOp)
    (h : ∀ op ∈ ops, ¬ commitsReport op) :
    clear_last_result_for_test cache = none ∧
    get_last_result (clear_last_result_for_test cache) = none ∧
    get_last_result (ops.foldl (fun s op => applyOp op s) (clear_last_result_for_test cache))
      = none := by
  refine ⟨rfl, rfl, ?_⟩
  have hs : ops.foldl (fun s op => applyOp op s) (none : Store) = none :=
    foldl_none_of_no_commit ops h
  show get_last_result (ops.foldl (fun s op => applyOp op s) (none : Store)) = none
  rw [hs]
  rfl

/-- Witness for C7: clear, then a read, another clear and a failing run; the
store still reads as `none`. -/
theorem clear_then_none_until_set_witness :
    get_last_result (([StoreOp.getOp, StoreOp.clearOp,
        StoreOp.runOp (fun _ => none) (fun _ _ => .error "connection refused")
          "10.0.0.1" "5201" 6]).foldl (fun s op => applyOp op s)
      (clear_last_result_for_test (some (exampleReport 7, 3)))) = none := by
  have h := clear_then_none_until_set (some (exampleReport 7, 3))
    [StoreOp.getOp, StoreOp.clearOp,
      StoreOp.runOp (fun _ => none) (fun _ _ => .error "connection refused") "10.0.0.1" "5201" 6]
    (by
      intro op hop
      simp only [List.mem_cons, List.not_mem_nil, or_false] at hop
      rcases hop with rfl | rfl | rfl
      · exact fun hc => hc
      · exact fun hc => hc
      · rintro ⟨stdout, data, hok, hp⟩
        exact nomatch hok)
  exact h.2.2

end Iperf3

namespace Iperf3

/-- C8: the scheduler's event trace begins with a measurement cycle — no tick
wait precedes it — and when the startup cycle's runner succeeds and its output
parses, the store is already populated after cycle 0, before any tick. -/
theorem scheduler_first_cycle_before_first_tick (n : Nat)
    (parse : String → Option Iperf3Report)
    (runner : Nat → String → String → Except String String)
    (iperf3_ip iperf3_port : String) (times : Nat → Nat)
    (stdout : String) (data : Iperf3Report)
    (hok : runner 0 iperf3_ip iperf3_port = .ok stdout)
    (hparse : parse stdout = some data) :
    (spawn_iperf3_scheduler_events n).head? = some SchedEvent.runCycle ∧
    SchedEvent.tickWait ∉ (spawn_iperf3_scheduler_events n).take 1 ∧
    spawn_iperf3_scheduler_cache parse runner iperf3_ip iperf3_port times 0
      = some ({ start := data.start, intervals := data.intervals, end_ := data.end_ }, times 0) ∧
    get_last_result (spawn_iperf3_scheduler_cache parse runner iperf3_ip iperf3_port times 0)
      = some { start := data.start, intervals := data.intervals, end_ := data.end_ } := by
  have hc : spawn_iperf3_scheduler_cache parse runner iperf3_ip iperf3_port times 0
      = some ({ start := data.start, intervals := data.intervals, end_ := data.end_ }, times 0) := by
    simp [spawn_iperf3_scheduler_cache, run_iperf3_and_cache_with_runner, hok, hparse]
  refine ⟨rfl, by simp [spawn_iperf3_scheduler_events], hc, by rw [hc]; rfl⟩

/-- Witness for C8: with a succeeding runner, the store already holds the
report after the startup cycle, before any tick. -/
theorem scheduler_first_cycle_before_first_tick_witness :
    get_last_result (spawn_iperf3_scheduler_cache (fun _ => some (exampleReport 2))
      (fun _ _ _ => .ok "iperf3 output") "10.0.0.1" "5201" (fun _ => 0) 0)
      = some (exampleReport 2) := by
  have h := scheduler_first_cycle_before_first_tick 3 (fun _ => some (exampleReport 2))
    (fun _ _ _ => .ok "iperf3 output") "10.0.0.1" "5201" (fun _ => 0) "iperf3 output"
    (exampleReport 2) rfl rfl
  exact h.2.2.2

/-- C9: `get_last_result` has no side effect on the store — as a state
transformer it returns the state it was given, any number of reads leaves a
fold over the store unchanged — and its value is a snapshot of the cached
report determined by the state. -/
theorem get_last_result_no_side_effects (cache : Store) (n : Nat)
    (result : Iperf3Report) (t : Nat) :
    (get_last_result_st cache).2 = cache ∧
    (get_last_result_st cache).1 = get_last_result cache ∧
    (List.replicate n StoreOp.getOp).foldl (fun s op => applyOp op s) cache = cache ∧
    (get_last_result_st (some (result, t))).1 = some result := by
  refine ⟨rfl, rfl, ?_, rfl⟩
  induction n with
  | zero => rfl
  | succ k ih =>
    rw [List.replicate_succ, List.foldl_cons]
    exact ih

/-- C10: `min_frequency_duration` multiplies in u64 with no overflow guard:
`INTERVAL_MINUTES = "9223372036854775808"` parses as a u64, its product with 60
exceeds `2 ^ 64`, and the computed seconds (0) differ from the true product. -/
theorem min_frequency_duration_u64_overflow :
    parseU64 "9223372036854775808" = some 9223372036854775808 ∧
    2 ^ 64 ≤ 9223372036854775808 * 60 ∧
    min_frequency_duration (some "9223372036854775808") = 0 ∧
    min_frequency_duration (some "9223372036854775808") ≠ 9223372036854775808 * 60 := by
  exact ⟨by decide, by norm_num, by decide, by decide⟩

end Iperf3
